import Mathlib

/-!
Verification of `src/data.py` of the DReCa repository: two dataset adapters,
`CorpusQA` and `CorpusSC`, which tokenize source files into tensor records and
cache the result on disk keyed by tokenizer class name and source file name.

The embedding models tensors as lists of numbers, the filesystem as an
association list from paths to cache contents, and the external collaborators
(the pretrained tokenizer, the squad example extraction and feature conversion
routines, the dataframe reader) as function parameters or spec-modelled
definitions, since their code is not part of this repository.
-/

namespace DReCa

/-! ### Pair-classification data model (CorpusSC) -/

/-- One row of the tab-separated pair-classification file, as read by the
dataframe reader with columns named premise, hypothesis, label
(src/data.py lines 123-128). -/
structure SCRow where
  premise : String
  hypothesis : String
  label : String
deriving DecidableEq, Repr

/-- The batch encoding returned by the external tokenizer call
(src/data.py lines 131-141): parallel per-row sequences of input ids,
token type ids and attention mask. -/
structure BatchEncoding where
  input_ids : List (List Nat)
  token_type_ids : List (List Nat)
  attention_mask : List (List Nat)
deriving DecidableEq, Repr

/-- The four-field tensor dictionary assembled by `CorpusSC.preprocess`
(src/data.py lines 145-150). -/
structure SCData where
  input_ids : List (List Nat)
  token_type_ids : List (List Nat)
  attention_mask : List (List Nat)
  label : List Nat
deriving DecidableEq, Repr

/-- The record returned by `CorpusSC.__getitem__` (src/data.py lines 157-163):
exactly the four keys input_ids, token_type_ids, attention_mask, label. -/
structure SCItem where
  input_ids : List Nat
  token_type_ids : List Nat
  attention_mask : List Nat
  label : Nat
deriving DecidableEq, Repr

/-- `self.label_dict = {"contradiction": 0, "entailment": 1, "neutral": 2}`
(src/data.py line 108); lookup of a missing key raises, modelled by `none`. -/
def label_dict (s : String) : Option Nat :=
  if s = "contradiction" then some 0
  else if s = "entailment" then some 1
  else if s = "neutral" then some 2
  else none

/-- The list comprehension `[self.label_dict[label] for label in label_list]`
(src/data.py line 143): a KeyError on any element aborts the whole
comprehension, modelled by `none`. -/
def mapLabels : List String → Option (List Nat)
  | [] => some []
  | l :: ls =>
    match label_dict l, mapLabels ls with
    | some v, some vs => some (v :: vs)
    | _, _ => none

/-- `max_sequence_length` fixed at construction (src/data.py line 102). -/
def max_sequence_length : Nat := 128

/-- Right-pad a sequence with the pad value `p` up to length `L`. -/
def padTo (p : Nat) (L : Nat) (xs : List Nat) : List Nat :=
  xs ++ List.replicate (L - xs.length) p

/-- Modelled from the spec: the external pretrained subword tokenizer applied
jointly to the premise and hypothesis lists, "with truncation and padding to
max_sequence_length" (spec section 4.2). Each raw pair encoding, produced by
the abstract per-pair encoder `enc` (returning raw input ids and raw token
type ids of equal length), is truncated to `maxLen` tokens and padded to
`maxLen`; the attention mask marks real tokens with 1 and padding with 0.
The tokenizer code itself belongs to an external library and is not in
this repository. -/
def specTokenize (enc : String → String → List Nat × List Nat) (padId : Nat)
    (maxLen : Nat) (premises hyps : List String) : BatchEncoding :=
  let raw := (premises.zip hyps).map (fun pr => enc pr.1 pr.2)
  { input_ids := raw.map (fun r => padTo padId maxLen (r.1.take maxLen))
    token_type_ids := raw.map (fun r => padTo 0 maxLen (r.2.take maxLen))
    attention_mask :=
      raw.map (fun r => padTo 0 maxLen (List.replicate (min r.1.length maxLen) 1)) }

/-- `CorpusSC.preprocess` (src/data.py lines 122-152), with the dataframe
reader already applied (the rows are given) and the tokenizer abstracted as
`tok`. The assembled dictionary assigns the tokenizer attention_mask output
to the field named token_type_ids and the tokenizer token_type_ids output to
the field named attention_mask (src/data.py lines 147-148), exactly as the
source does. A label lookup failure aborts preprocessing. -/
def CorpusSC.preprocess (tok : List String → List String → BatchEncoding)
    (rows : List SCRow) : Option SCData :=
  let ids := tok (rows.map SCRow.premise) (rows.map SCRow.hypothesis)
  match mapLabels (rows.map SCRow.label) with
  | none => none
  | some labels =>
    some { input_ids := ids.input_ids
           token_type_ids := ids.attention_mask
           attention_mask := ids.token_type_ids
           label := labels }

/-- The in-memory state of a constructed `CorpusSC`: its `self.data`. -/
structure CorpusSC where
  data : SCData
deriving DecidableEq, Repr

/-- The cache path `path + f"_{type(self.tokenizer).__name__}.pickle"`
(src/data.py line 110); `tokName` stands for the tokenizer class name. -/
def CorpusSC.cachePath (tokName : String) (path : String) : String :=
  path ++ "_" ++ tokName ++ ".pickle"

/-- The filesystem visible to `CorpusSC`: a map from paths to pickled
`SCData` values, modelled as an association list. -/
abbrev SCFS := List (String × SCData)

/-- `CorpusSC.__init__` (src/data.py lines 99-120): if the cache file exists
its content is unpickled into `self.data`; otherwise `preprocess` runs and
its result is pickled to the cache file. A preprocessing failure propagates
before `pickle.dump` runs, so the filesystem is unchanged on failure.
Returns the constructed object (or `none` on failure) and the resulting
filesystem. -/
def CorpusSC.init (tok : List String → List String → BatchEncoding)
    (tokName : String) (path : String) (rows : List SCRow)
    (fs : SCFS) : Option CorpusSC × SCFS :=
  let cached_data_file := CorpusSC.cachePath tokName path
  match fs.lookup cached_data_file with
  | some d => (some ⟨d⟩, fs)
  | none =>
    match CorpusSC.preprocess tok rows with
    | none => (none, fs)
    | some d => (some ⟨d⟩, (cached_data_file, d) :: fs)

/-- `CorpusSC.__len__` (src/data.py lines 154-155):
`self.data["input_ids"].shape[0]`. -/
def CorpusSC.length (c : CorpusSC) : Nat := c.data.input_ids.length

/-- `CorpusSC.__getitem__` (src/data.py lines 157-163); an out-of-range
tensor index raises, modelled by `none`. -/
def CorpusSC.getItem (c : CorpusSC) (i : Nat) : Option SCItem :=
  match c.data.input_ids[i]?, c.data.token_type_ids[i]?,
        c.data.attention_mask[i]?, c.data.label[i]? with
  | some a, some t, some m, some l => some ⟨a, t, m, l⟩
  | _, _, _, _ => none

/-! ### Question-answering data model (CorpusQA) -/

/-- One row of the converted pt dataset, as indexed by `CorpusQA.__getitem__`
(src/data.py lines 88-95): positions 0..4 of the row tuple. The sequences are
modelled from the spec as fixed-length numeric sequences, the feature
conversion routine being external to this repository. -/
structure QARow where
  input_ids : List Nat
  attention_mask : List Nat
  token_type_ids : List Nat
  answer_start : List Nat
  answer_end : List Nat
deriving DecidableEq, Repr

/-- The record returned by `CorpusQA.__getitem__` (src/data.py lines 88-95):
exactly the five keys input_ids, attention_mask, token_type_ids,
answer_start, answer_end. -/
structure QAItem where
  input_ids : List Nat
  attention_mask : List Nat
  token_type_ids : List Nat
  answer_start : List Nat
  answer_end : List Nat
deriving DecidableEq, Repr

/-- The serialized object written by `torch.save` on a QA cache miss
(src/data.py lines 78-81): a mapping with the three keys features, dataset,
examples. `F` and `E` are the (external) types of the feature list and the
example list. -/
structure QACache (F E : Type) where
  features : F
  dataset : List QARow
  examples : E
deriving DecidableEq, Repr

/-- The filesystem visible to `CorpusQA`: a map from paths to saved
`QACache` values, modelled as an association list. -/
abbrev QAFS (F E : Type) := List (String × QACache F E)

/-- Splitting a character list at every occurrence of the separator, by
structural recursion. Splitting the empty list yields one empty group, so
the result is always non-empty, matching Python str.split with an explicit
separator. -/
def splitOnChar (sep : Char) : List Char → List (List Char)
  | [] => [[]]
  | c :: cs =>
    let r := splitOnChar sep cs
    if c = sep then [] :: r else (c :: r.headD []) :: r.tail

/-- Python `file.split("/")` as used in src/data.py line 44. -/
def pySplitSlash (s : String) : List String :=
  (splitOnChar '/' s.toList).map String.mk

/-- `os.path.join(a, b)` for the shapes arising here: joining a possibly
empty directory with a relative file name; a trailing slash on the
directory is not doubled. -/
def osPathJoin (a b : String) : String :=
  if a = "" then b
  else if a.toList.getLastD ' ' = '/' then a ++ b
  else a ++ "/" ++ b

/-- `filename = file.split("/")[-1]` (src/data.py lines 44-45). -/
def CorpusQA.fileName (file : String) : String :=
  (pySplitSlash file).getLastD ""

/-- `data_dir = "/".join(file.split("/")[:-1])` (src/data.py line 46). -/
def CorpusQA.dataDir (file : String) : String :=
  String.intercalate "/" (pySplitSlash file).dropLast

/-- The QA cache path computed by `CorpusQA.preprocess` (src/data.py lines
48-50): join the directory with
`"cached_" ++ tokenizer class name ++ "_" ++ file name`. It depends only on
the tokenizer class name and the source file path, not on the evaluate
flag. -/
def CorpusQA.cachedFeaturesFile (tokName : String) (file : String) : String :=
  osPathJoin (CorpusQA.dataDir file)
    ("cached_" ++ tokName ++ "_" ++ CorpusQA.fileName file)

/-- The example extraction step (src/data.py lines 61-65): the squad
processor reads the dev examples when `evaluate` is set, the train examples
otherwise. The processor itself is external, so it is a parameter pair. -/
def CorpusQA.sourceExamples {E : Type}
    (get_dev_examples : String → String → E)
    (get_train_examples : String → String → E)
    (file : String) (evaluate : Bool) : E :=
  if evaluate then get_dev_examples (CorpusQA.dataDir file) (CorpusQA.fileName file)
  else get_train_examples (CorpusQA.dataDir file) (CorpusQA.fileName file)

/-- `CorpusQA.preprocess` (src/data.py lines 43-83). The external
collaborators are parameters: `get_dev_examples` and `get_train_examples`
stand for the squad processor (applied to data_dir and filename), and
`convert` for `squad_convert_examples_to_features` (applied to the examples
and the is_training flag, which the source sets to `not evaluate`),
returning the features and the pt dataset. On a cache hit the saved object
is loaded; on a miss the conversion runs and the result is saved under the
cache path. Returns `(dataset, examples, features)` as the source does,
together with the resulting filesystem. -/
def CorpusQA.preprocess {F E : Type} (tokName : String)
    (get_dev_examples : String → String → E)
    (get_train_examples : String → String → E)
    (convert : E → Bool → F × List QARow)
    (file : String) (evaluate : Bool)
    (fs : QAFS F E) : (List QARow × E × F) × QAFS F E :=
  match fs.lookup (CorpusQA.cachedFeaturesFile tokName file) with
  | some c => ((c.dataset, c.examples, c.features), fs)
  | none =>
    let examples :=
      CorpusQA.sourceExamples get_dev_examples get_train_examples file evaluate
    let fd := convert examples (!evaluate)
    ((fd.2, examples, fd.1),
     (CorpusQA.cachedFeaturesFile tokName file, ⟨fd.1, fd.2, examples⟩) :: fs)

/-- The in-memory state of a constructed `CorpusQA`: `self.dataset`,
`self.examples`, `self.features` (src/data.py line 28). -/
structure CorpusQA (F E : Type) where
  dataset : List QARow
  examples : E
  features : F
deriving DecidableEq, Repr

/-- `CorpusQA.__init__` (src/data.py lines 12-41) restricted to the fields
the indexed interface uses: run `preprocess` and store its three results.
Returns the constructed object and the resulting filesystem. -/
def CorpusQA.init {F E : Type} (tokName : String)
    (get_dev_examples : String → String → E)
    (get_train_examples : String → String → E)
    (convert : E → Bool → F × List QARow)
    (file : String) (evaluate : Bool)
    (fs : QAFS F E) : CorpusQA F E × QAFS F E :=
  let r := CorpusQA.preprocess tokName get_dev_examples get_train_examples
    convert file evaluate fs
  (⟨r.1.1, r.1.2.1, r.1.2.2⟩, r.2)

/-- `CorpusQA.__len__` (src/data.py lines 85-86): `len(self.dataset)`. -/
def CorpusQA.len {F E : Type} (c : CorpusQA F E) : Nat := c.dataset.length

/-- `CorpusQA.__getitem__` (src/data.py lines 88-95); an out-of-range
dataset index raises, modelled by `none`. -/
def CorpusQA.getItem {F E : Type} (c : CorpusQA F E) (i : Nat) :
    Option QAItem :=
  match c.dataset[i]? with
  | some r =>
    some ⟨r.input_ids, r.attention_mask, r.token_type_ids,
          r.answer_start, r.answer_end⟩
  | none => none

/-! ### Helper lemmas -/

/-- A successful `label_dict` lookup yields one of the three class ids. -/
theorem label_dict_val {s : String} {v : Nat} (h : label_dict s = some v) :
    v = 0 ∨ v = 1 ∨ v = 2 := by
  unfold label_dict at h
  split_ifs at h <;> simp_all

/-- `label_dict` succeeds exactly on the three known label texts. -/
theorem label_dict_isSome_of_known {s : String}
    (h : s = "contradiction" ∨ s = "entailment" ∨ s = "neutral") :
    (label_dict s).isSome := by
  rcases h with h | h | h <;> subst h <;> rfl

/-- If every label text is known, `mapLabels` succeeds, preserves the length,
and maps each position through `label_dict`. -/
theorem mapLabels_of_known (ls : List String)
    (h : ∀ l ∈ ls, (label_dict l).isSome) :
    ∃ vs, mapLabels ls = some vs ∧ vs.length = ls.length ∧
      ∀ i : Nat, vs[i]? = (ls[i]?).bind label_dict := by
  induction ls with
  | nil => exact ⟨[], rfl, rfl, fun i => by simp⟩
  | cons l ls ih =>
    obtain ⟨vs, hvs, hlen, hidx⟩ := ih (fun x hx => h x (List.mem_cons_of_mem _ hx))
    obtain ⟨v, hv⟩ := Option.isSome_iff_exists.mp (h l (List.mem_cons_self _ _))
    refine ⟨v :: vs, ?_, ?_, ?_⟩
    · simp [mapLabels, hv, hvs]
    · simp [hlen]
    · intro i
      cases i with
      | zero => simp [hv]
      | succ n => simpa using hidx n

/-- Every value produced by a successful `mapLabels` is one of 0, 1, 2. -/
theorem mapLabels_mem {ls : List String} {vs : List Nat}
    (h : mapLabels ls = some vs) : ∀ v ∈ vs, v = 0 ∨ v = 1 ∨ v = 2 := by
  induction ls generalizing vs with
  | nil =>
    simp only [mapLabels, Option.some.injEq] at h
    subst h; simp
  | cons l ls ih =>
    unfold mapLabels at h
    cases hd : label_dict l with
    | none => rw [hd] at h; simp at h
    | some v =>
      rw [hd] at h
      cases hm : mapLabels ls with
      | none => rw [hm] at h; simp at h
      | some vs0 =>
        rw [hm] at h
        simp only [Option.some.injEq] at h
        subst h
        intro x hx
        rcases List.mem_cons.mp hx with hx | hx
        · subst hx; exact label_dict_val hd
        · exact ih hm x hx

/-- If some label text is unknown, `mapLabels` fails. -/
theorem mapLabels_none {ls : List String} {l : String} (hmem : l ∈ ls)
    (h : label_dict l = none) : mapLabels ls = none := by
  induction ls with
  | nil => cases hmem
  | cons a as ih =>
    rcases List.mem_cons.mp hmem with hl | hl
    · subst hl; simp [mapLabels, h]
    · unfold mapLabels
      rw [ih hl]
      cases label_dict a <;> rfl

/-- Looking up the key just written returns the written value. -/
theorem lookup_cons_self {β : Type} (k : String) (v : β)
    (l : List (String × β)) : ((k, v) :: l).lookup k = some v := by
  simp [List.lookup]

/-- An element located by `getElem?` is a member of the list. -/
theorem mem_of_getElem_eq_some {α : Type} {l : List α} {i : Nat} {x : α}
    (h : l[i]? = some x) : x ∈ l := by
  rw [List.getElem?_eq_some] at h
  obtain ⟨hlt, rfl⟩ := h
  exact List.getElem_mem hlt

/-- `padTo` yields exactly length `L` when the input is no longer than `L`. -/
theorem padTo_length {p L : Nat} {xs : List Nat} (h : xs.length ≤ L) :
    (padTo p L xs).length = L := by
  simp [padTo]
  omega

/-- Every row of every field of a `specTokenize` batch has length `maxLen`. -/
theorem specTokenize_lengths (enc : String → String → List Nat × List Nat)
    (padId maxLen : Nat) (premises hyps : List String) :
    (∀ x ∈ (specTokenize enc padId maxLen premises hyps).input_ids,
      x.length = maxLen) ∧
    (∀ x ∈ (specTokenize enc padId maxLen premises hyps).token_type_ids,
      x.length = maxLen) ∧
    (∀ x ∈ (specTokenize enc padId maxLen premises hyps).attention_mask,
      x.length = maxLen) := by
  refine ⟨?_, ?_, ?_⟩ <;>
  · intro x hx
    simp only [specTokenize] at hx
    obtain ⟨r, hr, rfl⟩ := List.mem_map.mp hx
    apply padTo_length
    simp

/-- The fields delivered by a successful `CorpusSC.getItem` are the indexed
entries of the stored tensors. -/
theorem CorpusSC.getItem_fields {c : CorpusSC} {i : Nat} {it : SCItem}
    (h : c.getItem i = some it) :
    c.data.input_ids[i]? = some it.input_ids ∧
    c.data.token_type_ids[i]? = some it.token_type_ids ∧
    c.data.attention_mask[i]? = some it.attention_mask ∧
    c.data.label[i]? = some it.label := by
  unfold CorpusSC.getItem at h
  split at h
  · next a t m l ha ht hm hl =>
    simp only [Option.some.injEq] at h
    subst h
    exact ⟨ha, ht, hm, hl⟩
  · cases h

/-- `CorpusSC.init` on a cache hit returns the cached data and leaves the
filesystem unchanged. -/
theorem CorpusSC.init_hit (tok : List String → List String → BatchEncoding)
    (tokName path : String) (rows : List SCRow) (fs : SCFS) (d : SCData)
    (hhit : fs.lookup (CorpusSC.cachePath tokName path) = some d) :
    CorpusSC.init tok tokName path rows fs = (some ⟨d⟩, fs) := by
  simp only [CorpusSC.init]
  rw [hhit]

/-- `CorpusSC.init` on a cache miss runs `preprocess`; on success it writes
exactly one new cache entry, on failure it leaves the filesystem unchanged. -/
theorem CorpusSC.init_miss (tok : List String → List String → BatchEncoding)
    (tokName path : String) (rows : List SCRow) (fs : SCFS)
    (hmiss : fs.lookup (CorpusSC.cachePath tokName path) = none) :
    CorpusSC.init tok tokName path rows fs =
      match CorpusSC.preprocess tok rows with
      | none => (none, fs)
      | some d => (some ⟨d⟩, (CorpusSC.cachePath tokName path, d) :: fs) := by
  simp only [CorpusSC.init]
  rw [hmiss]

/-- `CorpusQA.preprocess` on a cache hit returns the cached triple and leaves
the filesystem unchanged. -/
theorem CorpusQA.preprocess_hit {F E : Type} (tokName : String)
    (gd gt : String → String → E) (convert : E → Bool → F × List QARow)
    (file : String) (evaluate : Bool) (fs : QAFS F E) (c : QACache F E)
    (hhit : fs.lookup (CorpusQA.cachedFeaturesFile tokName file) = some c) :
    CorpusQA.preprocess tokName gd gt convert file evaluate fs =
      ((c.dataset, c.examples, c.features), fs) := by
  unfold CorpusQA.preprocess
  rw [hhit]

/-- `CorpusQA.preprocess` on a cache miss extracts examples, converts them,
and writes exactly one new cache entry holding features, dataset and
examples. -/
theorem CorpusQA.preprocess_miss {F E : Type} (tokName : String)
    (gd gt : String → String → E) (convert : E → Bool → F × List QARow)
    (file : String) (evaluate : Bool) (fs : QAFS F E)
    (hmiss : fs.lookup (CorpusQA.cachedFeaturesFile tokName file) = none) :
    CorpusQA.preprocess tokName gd gt convert file evaluate fs =
      (((convert (CorpusQA.sourceExamples gd gt file evaluate) (!evaluate)).2,
        CorpusQA.sourceExamples gd gt file evaluate,
        (convert (CorpusQA.sourceExamples gd gt file evaluate) (!evaluate)).1),
       (CorpusQA.cachedFeaturesFile tokName file,
        ⟨(convert (CorpusQA.sourceExamples gd gt file evaluate) (!evaluate)).1,
         (convert (CorpusQA.sourceExamples gd gt file evaluate) (!evaluate)).2,
         CorpusQA.sourceExamples gd gt file evaluate⟩) :: fs) := by
  unfold CorpusQA.preprocess
  rw [hmiss]

/-- Unfolding of `CorpusQA.init` on a cache hit: the saved triple is loaded
and the filesystem is unchanged. -/
theorem CorpusQA.init_cache_hit {F E : Type} (tokName : String)
    (gd gt : String → String → E) (convert : E → Bool → F × List QARow)
    (file : String) (evaluate : Bool) (fs : QAFS F E) (c : QACache F E)
    (hhit : fs.lookup (CorpusQA.cachedFeaturesFile tokName file) = some c) :
    CorpusQA.init tokName gd gt convert file evaluate fs =
      (⟨c.dataset, c.examples, c.features⟩, fs) := by
  simp only [CorpusQA.init]
  rw [CorpusQA.preprocess_hit _ _ _ _ _ _ _ _ hhit]

/-- Unfolding of `CorpusQA.init` on a cache miss: examples are extracted,
converted, and saved as a single new cache entry. -/
theorem CorpusQA.init_cache_miss {F E : Type} (tokName : String)
    (gd gt : String → String → E) (convert : E → Bool → F × List QARow)
    (file : String) (evaluate : Bool) (fs : QAFS F E)
    (hmiss : fs.lookup (CorpusQA.cachedFeaturesFile tokName file) = none) :
    CorpusQA.init tokName gd gt convert file evaluate fs =
      (⟨(convert (CorpusQA.sourceExamples gd gt file evaluate) (!evaluate)).2,
        CorpusQA.sourceExamples gd gt file evaluate,
        (convert (CorpusQA.sourceExamples gd gt file evaluate) (!evaluate)).1⟩,
       (CorpusQA.cachedFeaturesFile tokName file,
        ⟨(convert (CorpusQA.sourceExamples gd gt file evaluate) (!evaluate)).1,
         (convert (CorpusQA.sourceExamples gd gt file evaluate) (!evaluate)).2,
         CorpusQA.sourceExamples gd gt file evaluate⟩) :: fs) := by
  simp only [CorpusQA.init]
  rw [CorpusQA.preprocess_miss _ _ _ _ _ _ _ hmiss]

/-! ### Claim theorems -/

/-- C1: In `CorpusSC.preprocess`, the assembled dataset swaps the semantic
names of token_type_ids and attention_mask relative to the tokenizer output:
the field named token_type_ids equals the tokenizer attention_mask tensor
and the field named attention_mask equals the tokenizer token_type_ids
tensor. -/
theorem corpusSC_swaps_mask_and_type_ids
    (tok : List String → List String → BatchEncoding) (rows : List SCRow)
    (d : SCData) (h : CorpusSC.preprocess tok rows = some d) :
    d.token_type_ids =
      (tok (rows.map SCRow.premise) (rows.map SCRow.hypothesis)).attention_mask ∧
    d.attention_mask =
      (tok (rows.map SCRow.premise) (rows.map SCRow.hypothesis)).token_type_ids := by
  simp only [CorpusSC.preprocess] at h
  cases hm : mapLabels (rows.map SCRow.label) with
  | none => rw [hm] at h; cases h
  | some labels =>
    rw [hm] at h
    simp only [Option.some.injEq] at h
    subst h
    exact ⟨rfl, rfl⟩

/-- Witness for C1 at a concrete input. -/
theorem corpusSC_swaps_mask_and_type_ids_witness :
    (⟨[[5, 6, 1, 1]], [[1, 1, 0, 0]], [[0, 1, 0, 0]], [1]⟩ : SCData).token_type_ids =
      (specTokenize (fun _ _ => ([5, 6], [0, 1])) 1 4 ["a"] ["b"]).attention_mask ∧
    (⟨[[5, 6, 1, 1]], [[1, 1, 0, 0]], [[0, 1, 0, 0]], [1]⟩ : SCData).attention_mask =
      (specTokenize (fun _ _ => ([5, 6], [0, 1])) 1 4 ["a"] ["b"]).token_type_ids :=
  corpusSC_swaps_mask_and_type_ids
    (specTokenize (fun _ _ => ([5, 6], [0, 1])) 1 4)
    [⟨"a", "b", "entailment"⟩]
    ⟨[[5, 6, 1, 1]], [[1, 1, 0, 0]], [[0, 1, 0, 0]], [1]⟩ (by decide)

/-- C2: For every pair-classification file whose label texts are all among
contradiction, entailment, neutral, and any tokenizer producing one output
row per input pair, preprocessing succeeds, the length equals the number of
rows, every label value is in 0, 1, 2, each position is the `label_dict`
image of the row label text, and a row labelled entailment yields 1. -/
theorem corpusSC_length_and_labels
    (tok : List String → List String → BatchEncoding) (rows : List SCRow)
    (htok : (tok (rows.map SCRow.premise) (rows.map SCRow.hypothesis)).input_ids.length
      = rows.length)
    (hlab : ∀ r ∈ rows,
      r.label = "contradiction" ∨ r.label = "entailment" ∨ r.label = "neutral") :
    ∃ d, CorpusSC.preprocess tok rows = some d ∧
      CorpusSC.length ⟨d⟩ = rows.length ∧
      (∀ v ∈ d.label, v = 0 ∨ v = 1 ∨ v = 2) ∧
      (∀ i : Nat, ∀ r, rows[i]? = some r → d.label[i]? = label_dict r.label) ∧
      (∀ i : Nat, ∀ r, rows[i]? = some r → r.label = "entailment" →
        d.label[i]? = some 1) := by
  obtain ⟨vs, hvs, hlen, hidx⟩ := mapLabels_of_known (rows.map SCRow.label)
    (by
      intro l hl
      obtain ⟨r, hr, rfl⟩ := List.mem_map.mp hl
      exact label_dict_isSome_of_known (hlab r hr))
  refine ⟨⟨(tok (rows.map SCRow.premise) (rows.map SCRow.hypothesis)).input_ids,
          (tok (rows.map SCRow.premise) (rows.map SCRow.hypothesis)).attention_mask,
          (tok (rows.map SCRow.premise) (rows.map SCRow.hypothesis)).token_type_ids,
          vs⟩, ?_, ?_, ?_, ?_, ?_⟩
  · simp only [CorpusSC.preprocess]
    rw [hvs]
  · exact htok
  · exact mapLabels_mem hvs
  · intro i r hir
    rw [hidx i, List.getElem?_map, hir]
    rfl
  · intro i r hir he
    rw [hidx i, List.getElem?_map, hir]
    show label_dict r.label = some 1
    rw [he]
    decide

/-- Witness for C2 at the concrete scenario from the spec: a single row with
label text entailment. -/
theorem corpusSC_length_and_labels_witness :
    ∃ d, CorpusSC.preprocess (specTokenize (fun _ _ => ([3, 4], [0, 0])) 1 128)
        [⟨"A man is eating.", "A man is eating food.", "entailment"⟩] = some d ∧
      CorpusSC.length ⟨d⟩ = 1 ∧
      (∀ v ∈ d.label, v = 0 ∨ v = 1 ∨ v = 2) ∧
      (∀ i : Nat, ∀ r,
        ([⟨"A man is eating.", "A man is eating food.", "entailment"⟩] : List SCRow)[i]? =
          some r → d.label[i]? = label_dict r.label) ∧
      (∀ i : Nat, ∀ r,
        ([⟨"A man is eating.", "A man is eating food.", "entailment"⟩] : List SCRow)[i]? =
          some r → r.label = "entailment" → d.label[i]? = some 1) :=
  corpusSC_length_and_labels (specTokenize (fun _ _ => ([3, 4], [0, 0])) 1 128)
    [⟨"A man is eating.", "A man is eating food.", "entailment"⟩]
    (by decide) (by decide)

/-- C3: Constructing a `CorpusSC` from an uncached file containing a row
whose label text is not a key of the label dictionary fails with a lookup
error and writes no cache file: the result is `none` and the filesystem is
unchanged. -/
theorem corpusSC_unknown_label_fails
    (tok : List String → List String → BatchEncoding)
    (tokName path : String) (rows : List SCRow) (fs : SCFS)
    (hmiss : fs.lookup (CorpusSC.cachePath tokName path) = none)
    (r : SCRow) (hr : r ∈ rows) (hunk : label_dict r.label = none) :
    CorpusSC.init tok tokName path rows fs = (none, fs) := by
  rw [CorpusSC.init_miss tok tokName path rows fs hmiss]
  simp only [CorpusSC.preprocess]
  rw [mapLabels_none (List.mem_map_of_mem SCRow.label hr) hunk]

/-- Witness for C3 at a concrete input with the unknown label text from the
spec scenario. -/
theorem corpusSC_unknown_label_fails_witness :
    CorpusSC.init (specTokenize (fun _ _ => ([3], [0])) 1 128) "BertTokenizer"
      "p" [⟨"a", "b", "unknown"⟩] [] = (none, []) :=
  corpusSC_unknown_label_fails (specTokenize (fun _ _ => ([3], [0])) 1 128)
    "BertTokenizer" "p" [⟨"a", "b", "unknown"⟩] [] rfl
    ⟨"a", "b", "unknown"⟩ (by decide) (by decide)

/-- C5: Every item returned by indexed access on a `CorpusSC` constructed on
a cache miss with the spec-modelled tokenizer has input_ids, token_type_ids
and attention_mask sequences of fixed length 128 (max_sequence_length),
longer tokenized pairs being truncated and shorter ones padded to that
length. -/
theorem corpusSC_item_fixed_length
    (enc : String → String → List Nat × List Nat) (padId : Nat)
    (tokName path : String) (rows : List SCRow) (fs : SCFS)
    (hmiss : fs.lookup (CorpusSC.cachePath tokName path) = none)
    (c : CorpusSC)
    (hc : (CorpusSC.init (specTokenize enc padId max_sequence_length)
        tokName path rows fs).1 = some c)
    (i : Nat) (it : SCItem) (hit : c.getItem i = some it) :
    it.input_ids.length = 128 ∧ it.token_type_ids.length = 128 ∧
    it.attention_mask.length = 128 := by
  rw [CorpusSC.init_miss _ _ _ _ _ hmiss] at hc
  cases hp : CorpusSC.preprocess (specTokenize enc padId max_sequence_length)
      rows with
  | none => rw [hp] at hc; cases hc
  | some d =>
    rw [hp] at hc
    have hcd : c = ⟨d⟩ := by
      have h2 : (some (⟨d⟩ : CorpusSC) : Option CorpusSC) = some c := hc
      exact (Option.some.inj h2).symm
    subst hcd
    obtain ⟨h1, h2, h3, _⟩ := CorpusSC.getItem_fields hit
    simp only [CorpusSC.preprocess] at hp
    cases hm : mapLabels (rows.map SCRow.label) with
    | none => rw [hm] at hp; cases hp
    | some labels =>
      rw [hm] at hp
      simp only [Option.some.injEq] at hp
      subst hp
      obtain ⟨hi1, hi2, hi3⟩ := specTokenize_lengths enc padId
        max_sequence_length (rows.map SCRow.premise) (rows.map SCRow.hypothesis)
      exact ⟨hi1 it.input_ids (mem_of_getElem_eq_some h1),
             hi3 it.token_type_ids (mem_of_getElem_eq_some h2),
             hi2 it.attention_mask (mem_of_getElem_eq_some h3)⟩

/-- Witness for C5 at a concrete input: a single short pair, padded to
length 128. -/
theorem corpusSC_item_fixed_length_witness :
    ((((CorpusSC.init (specTokenize (fun _ _ => ([3, 4], [0, 0])) 1
          max_sequence_length) "T" "p" [⟨"x", "y", "neutral"⟩] []).1.getD
        ⟨⟨[], [], [], []⟩⟩).getItem 0).getD
        ⟨[], [], [], 0⟩).input_ids.length = 128 ∧
    ((((CorpusSC.init (specTokenize (fun _ _ => ([3, 4], [0, 0])) 1
          max_sequence_length) "T" "p" [⟨"x", "y", "neutral"⟩] []).1.getD
        ⟨⟨[], [], [], []⟩⟩).getItem 0).getD
        ⟨[], [], [], 0⟩).token_type_ids.length = 128 ∧
    ((((CorpusSC.init (specTokenize (fun _ _ => ([3, 4], [0, 0])) 1
          max_sequence_length) "T" "p" [⟨"x", "y", "neutral"⟩] []).1.getD
        ⟨⟨[], [], [], []⟩⟩).getItem 0).getD
        ⟨[], [], [], 0⟩).attention_mask.length = 128 :=
  corpusSC_item_fixed_length (fun _ _ => ([3, 4], [0, 0])) 1 "T" "p"
    [⟨"x", "y", "neutral"⟩] [] rfl
    ((CorpusSC.init (specTokenize (fun _ _ => ([3, 4], [0, 0])) 1
        max_sequence_length) "T" "p" [⟨"x", "y", "neutral"⟩] []).1.getD
      ⟨⟨[], [], [], []⟩⟩)
    (by decide) 0
    ((((CorpusSC.init (specTokenize (fun _ _ => ([3, 4], [0, 0])) 1
          max_sequence_length) "T" "p" [⟨"x", "y", "neutral"⟩] []).1.getD
        ⟨⟨[], [], [], []⟩⟩).getItem 0).getD ⟨[], [], [], 0⟩)
    (by decide)

/-- C4: For a `CorpusQA` constructed on a cache miss from a converter whose
rows carry the five length-384 fields (the spec-modelled contract of the
external feature conversion), the length equals the number of rows of the
converted dataset and every index in range yields an item with exactly the
five named fields, each of length 384. -/
theorem corpusQA_len_and_item_fields {F E : Type} (tokName : String)
    (gd gt : String → String → E) (convert : E → Bool → F × List QARow)
    (file : String) (evaluate : Bool) (fs : QAFS F E)
    (hmiss : fs.lookup (CorpusQA.cachedFeaturesFile tokName file) = none)
    (hconv : ∀ e b, ∀ row ∈ (convert e b).2,
      row.input_ids.length = 384 ∧ row.attention_mask.length = 384 ∧
      row.token_type_ids.length = 384 ∧ row.answer_start.length = 384 ∧
      row.answer_end.length = 384) :
    (CorpusQA.init tokName gd gt convert file evaluate fs).1.len =
      ((convert (CorpusQA.sourceExamples gd gt file evaluate) (!evaluate)).2).length ∧
    ∀ i : Nat, i < (CorpusQA.init tokName gd gt convert file evaluate fs).1.len →
      ∃ it, (CorpusQA.init tokName gd gt convert file evaluate fs).1.getItem i
          = some it ∧
        it.input_ids.length = 384 ∧ it.attention_mask.length = 384 ∧
        it.token_type_ids.length = 384 ∧ it.answer_start.length = 384 ∧
        it.answer_end.length = 384 := by
  have hrows := hconv (CorpusQA.sourceExamples gd gt file evaluate) (!evaluate)
  rw [CorpusQA.init_cache_miss _ _ _ _ _ _ _ hmiss]
  constructor
  · rfl
  · intro i hi
    have hi2 : i <
        ((convert (CorpusQA.sourceExamples gd gt file evaluate) (!evaluate)).2).length :=
      hi
    obtain ⟨l1, l2, l3, l4, l5⟩ := hrows _ (List.getElem_mem hi2)
    refine ⟨⟨(((convert (CorpusQA.sourceExamples gd gt file evaluate)
            (!evaluate)).2)[i]).input_ids,
          (((convert (CorpusQA.sourceExamples gd gt file evaluate)
            (!evaluate)).2)[i]).attention_mask,
          (((convert (CorpusQA.sourceExamples gd gt file evaluate)
            (!evaluate)).2)[i]).token_type_ids,
          (((convert (CorpusQA.sourceExamples gd gt file evaluate)
            (!evaluate)).2)[i]).answer_start,
          (((convert (CorpusQA.sourceExamples gd gt file evaluate)
            (!evaluate)).2)[i]).answer_end⟩, ?_, l1, l2, l3, l4, l5⟩
    simp only [CorpusQA.getItem]
    rw [List.getElem?_eq_getElem hi2]

/-- Witness for C4 at a concrete input: a constant converter producing one
row of five length-384 sequences. -/
theorem corpusQA_len_and_item_fields_witness :
    (CorpusQA.init "T" (fun _ _ => (0 : Nat)) (fun _ _ => (0 : Nat))
        (fun _ _ => ((0 : Nat),
          [⟨List.replicate 384 0, List.replicate 384 0, List.replicate 384 0,
            List.replicate 384 0, List.replicate 384 0⟩]))
        "d/f.json" false []).1.len = 1 ∧
    ∀ i : Nat, i < (CorpusQA.init "T" (fun _ _ => (0 : Nat))
        (fun _ _ => (0 : Nat))
        (fun _ _ => ((0 : Nat),
          [⟨List.replicate 384 0, List.replicate 384 0, List.replicate 384 0,
            List.replicate 384 0, List.replicate 384 0⟩]))
        "d/f.json" false []).1.len →
      ∃ it, (CorpusQA.init "T" (fun _ _ => (0 : Nat)) (fun _ _ => (0 : Nat))
          (fun _ _ => ((0 : Nat),
            [⟨List.replicate 384 0, List.replicate 384 0, List.replicate 384 0,
              List.replicate 384 0, List.replicate 384 0⟩]))
          "d/f.json" false []).1.getItem i = some it ∧
        it.input_ids.length = 384 ∧ it.attention_mask.length = 384 ∧
        it.token_type_ids.length = 384 ∧ it.answer_start.length = 384 ∧
        it.answer_end.length = 384 :=
  corpusQA_len_and_item_fields "T" (fun _ _ => (0 : Nat)) (fun _ _ => (0 : Nat))
    (fun _ _ => ((0 : Nat),
      [⟨List.replicate 384 0, List.replicate 384 0, List.replicate 384 0,
        List.replicate 384 0, List.replicate 384 0⟩]))
    "d/f.json" false [] rfl
    (by
      intro e b row h
      rw [List.mem_singleton] at h
      subst h
      refine ⟨?_, ?_, ?_, ?_, ?_⟩ <;> exact List.length_replicate 384 0)

/-- C6: on a cache miss, `CorpusQA` persists exactly one serialized object at
`<dir>/cached_<TokenizerClassName>_<filename>` holding the three keys
features, dataset, examples, and `CorpusSC` persists exactly one serialized
object at `<path>_<TokenizerClassName>.pickle` holding the assembled
four-field tensor dictionary. -/
theorem cache_file_layout {F E : Type} (tokName : String)
    (gd gt : String → String → E) (convert : E → Bool → F × List QARow)
    (file : String) (evaluate : Bool) (fs : QAFS F E)
    (hmiss : fs.lookup (CorpusQA.cachedFeaturesFile tokName file) = none)
    (tok : List String → List String → BatchEncoding)
    (scTok scPath : String) (rows : List SCRow) (scfs : SCFS)
    (hmiss2 : scfs.lookup (CorpusSC.cachePath scTok scPath) = none)
    (d : SCData) (hpre : CorpusSC.preprocess tok rows = some d) :
    (CorpusQA.preprocess tokName gd gt convert file evaluate fs).2 =
      (CorpusQA.cachedFeaturesFile tokName file,
       ⟨(convert (CorpusQA.sourceExamples gd gt file evaluate) (!evaluate)).1,
        (convert (CorpusQA.sourceExamples gd gt file evaluate) (!evaluate)).2,
        CorpusQA.sourceExamples gd gt file evaluate⟩) :: fs ∧
    (CorpusSC.init tok scTok scPath rows scfs).2 =
      (scPath ++ "_" ++ scTok ++ ".pickle", d) :: scfs := by
  constructor
  · rw [CorpusQA.preprocess_miss _ _ _ _ _ _ _ hmiss]
  · rw [CorpusSC.init_miss _ _ _ _ _ hmiss2, hpre]
    rfl

/-- Witness for C6 at concrete inputs for both adapters. -/
theorem cache_file_layout_witness :
    (CorpusQA.preprocess "T" (fun _ _ => (0 : Nat)) (fun _ _ => (0 : Nat))
        (fun _ _ => ((0 : Nat), ([] : List QARow))) "d/f" false []).2 =
      [("d/cached_T_f", ⟨0, [], 0⟩)] ∧
    (CorpusSC.init (specTokenize (fun _ _ => ([7], [0])) 9 3) "T2" "q"
        [⟨"a", "b", "neutral"⟩] []).2 =
      [("q_T2.pickle", ⟨[[7, 9, 9]], [[1, 0, 0]], [[0, 0, 0]], [2]⟩)] :=
  cache_file_layout "T" (fun _ _ => (0 : Nat)) (fun _ _ => (0 : Nat))
    (fun _ _ => ((0 : Nat), ([] : List QARow))) "d/f" false [] rfl
    (specTokenize (fun _ _ => ([7], [0])) 9 3) "T2" "q"
    [⟨"a", "b", "neutral"⟩] [] rfl
    ⟨[[7, 9, 9]], [[1, 0, 0]], [[0, 0, 0]], [2]⟩ (by decide)

/-- C7: round-trip equivalence of the two construction branches: for the
same source file and tokenizer, the cache-miss construction and a
construction that loads the cache the former wrote yield identical
in-memory data, the same length and identical values at every index, for
both adapters. -/
theorem cache_round_trip {F E : Type} (tokName : String)
    (gd gt : String → String → E) (convert : E → Bool → F × List QARow)
    (file : String) (evaluate : Bool) (fs : QAFS F E)
    (hmiss : fs.lookup (CorpusQA.cachedFeaturesFile tokName file) = none)
    (tok : List String → List String → BatchEncoding)
    (scTok scPath : String) (rows : List SCRow) (scfs : SCFS)
    (hmiss2 : scfs.lookup (CorpusSC.cachePath scTok scPath) = none)
    (d : SCData) (hpre : CorpusSC.preprocess tok rows = some d) :
    ((CorpusQA.init tokName gd gt convert file evaluate
        ((CorpusQA.init tokName gd gt convert file evaluate fs).2)).1 =
      (CorpusQA.init tokName gd gt convert file evaluate fs).1 ∧
     (CorpusQA.init tokName gd gt convert file evaluate
        ((CorpusQA.init tokName gd gt convert file evaluate fs).2)).1.len =
      (CorpusQA.init tokName gd gt convert file evaluate fs).1.len ∧
     ∀ i : Nat, (CorpusQA.init tokName gd gt convert file evaluate
        ((CorpusQA.init tokName gd gt convert file evaluate fs).2)).1.getItem i =
      (CorpusQA.init tokName gd gt convert file evaluate fs).1.getItem i) ∧
    ∃ c1 c2, (CorpusSC.init tok scTok scPath rows scfs).1 = some c1 ∧
      (CorpusSC.init tok scTok scPath rows
        ((CorpusSC.init tok scTok scPath rows scfs).2)).1 = some c2 ∧
      c2 = c1 ∧ c2.length = c1.length ∧
      ∀ i : Nat, c2.getItem i = c1.getItem i := by
  have h1 := CorpusQA.init_cache_miss tokName gd gt convert file evaluate fs hmiss
  have hlk : ((CorpusQA.init tokName gd gt convert file evaluate fs).2).lookup
      (CorpusQA.cachedFeaturesFile tokName file) = some
      ⟨(convert (CorpusQA.sourceExamples gd gt file evaluate) (!evaluate)).1,
       (convert (CorpusQA.sourceExamples gd gt file evaluate) (!evaluate)).2,
       CorpusQA.sourceExamples gd gt file evaluate⟩ := by
    rw [h1]
    exact lookup_cons_self _ _ _
  have h2 := CorpusQA.init_cache_hit tokName gd gt convert file evaluate
    ((CorpusQA.init tokName gd gt convert file evaluate fs).2) _ hlk
  have hobj : (CorpusQA.init tokName gd gt convert file evaluate
      ((CorpusQA.init tokName gd gt convert file evaluate fs).2)).1 =
      (CorpusQA.init tokName gd gt convert file evaluate fs).1 := by
    rw [h2, h1]
  have s1 : CorpusSC.init tok scTok scPath rows scfs =
      (some ⟨d⟩, (CorpusSC.cachePath scTok scPath, d) :: scfs) := by
    rw [CorpusSC.init_miss _ _ _ _ _ hmiss2, hpre]
  have slk : ((CorpusSC.init tok scTok scPath rows scfs).2).lookup
      (CorpusSC.cachePath scTok scPath) = some d := by
    rw [s1]
    exact lookup_cons_self _ _ _
  have s2 := CorpusSC.init_hit tok scTok scPath rows
    ((CorpusSC.init tok scTok scPath rows scfs).2) d slk
  refine ⟨⟨hobj, by rw [hobj], fun i => by rw [hobj]⟩,
    ⟨d⟩, ⟨d⟩, ?_, ?_, rfl, rfl, fun i => rfl⟩
  · rw [s1]
  · rw [s2]

/-- Witness for C7 at concrete inputs for both adapters. -/
theorem cache_round_trip_witness :
    ((CorpusQA.init "T" (fun _ _ => (1 : Nat)) (fun _ _ => (2 : Nat))
        (fun e _ => (e, ([] : List QARow))) "d/f" false
        ((CorpusQA.init "T" (fun _ _ => (1 : Nat)) (fun _ _ => (2 : Nat))
          (fun e _ => (e, ([] : List QARow))) "d/f" false []).2)).1 =
      (CorpusQA.init "T" (fun _ _ => (1 : Nat)) (fun _ _ => (2 : Nat))
        (fun e _ => (e, ([] : List QARow))) "d/f" false []).1 ∧
     (CorpusQA.init "T" (fun _ _ => (1 : Nat)) (fun _ _ => (2 : Nat))
        (fun e _ => (e, ([] : List QARow))) "d/f" false
        ((CorpusQA.init "T" (fun _ _ => (1 : Nat)) (fun _ _ => (2 : Nat))
          (fun e _ => (e, ([] : List QARow))) "d/f" false []).2)).1.len =
      (CorpusQA.init "T" (fun _ _ => (1 : Nat)) (fun _ _ => (2 : Nat))
        (fun e _ => (e, ([] : List QARow))) "d/f" false []).1.len ∧
     ∀ i : Nat, (CorpusQA.init "T" (fun _ _ => (1 : Nat)) (fun _ _ => (2 : Nat))
        (fun e _ => (e, ([] : List QARow))) "d/f" false
        ((CorpusQA.init "T" (fun _ _ => (1 : Nat)) (fun _ _ => (2 : Nat))
          (fun e _ => (e, ([] : List QARow))) "d/f" false []).2)).1.getItem i =
      (CorpusQA.init "T" (fun _ _ => (1 : Nat)) (fun _ _ => (2 : Nat))
        (fun e _ => (e, ([] : List QARow))) "d/f" false []).1.getItem i) ∧
    ∃ c1 c2, (CorpusSC.init (specTokenize (fun _ _ => ([7], [0])) 9 3) "T2" "q"
        [⟨"a", "b", "neutral"⟩] []).1 = some c1 ∧
      (CorpusSC.init (specTokenize (fun _ _ => ([7], [0])) 9 3) "T2" "q"
        [⟨"a", "b", "neutral"⟩]
        ((CorpusSC.init (specTokenize (fun _ _ => ([7], [0])) 9 3) "T2" "q"
          [⟨"a", "b", "neutral"⟩] []).2)).1 = some c2 ∧
      c2 = c1 ∧ c2.length = c1.length ∧
      ∀ i : Nat, c2.getItem i = c1.getItem i :=
  cache_round_trip "T" (fun _ _ => (1 : Nat)) (fun _ _ => (2 : Nat))
    (fun e _ => (e, ([] : List QARow))) "d/f" false [] rfl
    (specTokenize (fun _ _ => ([7], [0])) 9 3) "T2" "q"
    [⟨"a", "b", "neutral"⟩] [] rfl
    ⟨[[7, 9, 9]], [[1, 0, 0]], [[0, 0, 0]], [2]⟩ (by decide)

/-- C8: idempotence of construction: constructing the same dataset twice
from the same initially uncached source leaves the cache written by the
first construction unchanged (the second one only reads it) and yields
identical indexed values at every index, for both adapters. -/
theorem construction_idempotent {F E : Type} (tokName : String)
    (gd gt : String → String → E) (convert : E → Bool → F × List QARow)
    (file : String) (evaluate : Bool) (fs : QAFS F E)
    (hmiss : fs.lookup (CorpusQA.cachedFeaturesFile tokName file) = none)
    (tok : List String → List String → BatchEncoding)
    (scTok scPath : String) (rows : List SCRow) (scfs : SCFS)
    (hmiss2 : scfs.lookup (CorpusSC.cachePath scTok scPath) = none)
    (d : SCData) (hpre : CorpusSC.preprocess tok rows = some d) :
    ((CorpusQA.init tokName gd gt convert file evaluate
        ((CorpusQA.init tokName gd gt convert file evaluate fs).2)).2 =
      (CorpusQA.init tokName gd gt convert file evaluate fs).2 ∧
     ∀ i : Nat, (CorpusQA.init tokName gd gt convert file evaluate
        ((CorpusQA.init tokName gd gt convert file evaluate fs).2)).1.getItem i =
      (CorpusQA.init tokName gd gt convert file evaluate fs).1.getItem i) ∧
    ∃ c1 c2, (CorpusSC.init tok scTok scPath rows scfs).1 = some c1 ∧
      (CorpusSC.init tok scTok scPath rows
        ((CorpusSC.init tok scTok scPath rows scfs).2)).1 = some c2 ∧
      (CorpusSC.init tok scTok scPath rows
        ((CorpusSC.init tok scTok scPath rows scfs).2)).2 =
        (CorpusSC.init tok scTok scPath rows scfs).2 ∧
      ∀ i : Nat, c2.getItem i = c1.getItem i := by
  have h1 := CorpusQA.init_cache_miss tokName gd gt convert file evaluate fs hmiss
  have hlk : ((CorpusQA.init tokName gd gt convert file evaluate fs).2).lookup
      (CorpusQA.cachedFeaturesFile tokName file) = some
      ⟨(convert (CorpusQA.sourceExamples gd gt file evaluate) (!evaluate)).1,
       (convert (CorpusQA.sourceExamples gd gt file evaluate) (!evaluate)).2,
       CorpusQA.sourceExamples gd gt file evaluate⟩ := by
    rw [h1]
    exact lookup_cons_self _ _ _
  have h2 := CorpusQA.init_cache_hit tokName gd gt convert file evaluate
    ((CorpusQA.init tokName gd gt convert file evaluate fs).2) _ hlk
  have s1 : CorpusSC.init tok scTok scPath rows scfs =
      (some ⟨d⟩, (CorpusSC.cachePath scTok scPath, d) :: scfs) := by
    rw [CorpusSC.init_miss _ _ _ _ _ hmiss2, hpre]
  have slk : ((CorpusSC.init tok scTok scPath rows scfs).2).lookup
      (CorpusSC.cachePath scTok scPath) = some d := by
    rw [s1]
    exact lookup_cons_self _ _ _
  have s2 := CorpusSC.init_hit tok scTok scPath rows
    ((CorpusSC.init tok scTok scPath rows scfs).2) d slk
  refine ⟨⟨by rw [h2], fun i => ?_⟩, ⟨d⟩, ⟨d⟩, ?_, ?_, ?_, fun i => rfl⟩
  · rw [h2, h1]
  · rw [s1]
  · rw [s2]
  · rw [s2]

/-- Witness for C8 at concrete inputs for both adapters. -/
theorem construction_idempotent_witness :
    ((CorpusQA.init "T" (fun _ _ => (1 : Nat)) (fun _ _ => (2 : Nat))
        (fun e _ => (e, ([] : List QARow))) "d/f" false
        ((CorpusQA.init "T" (fun _ _ => (1 : Nat)) (fun _ _ => (2 : Nat))
          (fun e _ => (e, ([] : List QARow))) "d/f" false []).2)).2 =
      (CorpusQA.init "T" (fun _ _ => (1 : Nat)) (fun _ _ => (2 : Nat))
        (fun e _ => (e, ([] : List QARow))) "d/f" false []).2 ∧
     ∀ i : Nat, (CorpusQA.init "T" (fun _ _ => (1 : Nat)) (fun _ _ => (2 : Nat))
        (fun e _ => (e, ([] : List QARow))) "d/f" false
        ((CorpusQA.init "T" (fun _ _ => (1 : Nat)) (fun _ _ => (2 : Nat))
          (fun e _ => (e, ([] : List QARow))) "d/f" false []).2)).1.getItem i =
      (CorpusQA.init "T" (fun _ _ => (1 : Nat)) (fun _ _ => (2 : Nat))
        (fun e _ => (e, ([] : List QARow))) "d/f" false []).1.getItem i) ∧
    ∃ c1 c2, (CorpusSC.init (specTokenize (fun _ _ => ([7], [0])) 9 3) "T2" "q"
        [⟨"a", "b", "neutral"⟩] []).1 = some c1 ∧
      (CorpusSC.init (specTokenize (fun _ _ => ([7], [0])) 9 3) "T2" "q"
        [⟨"a", "b", "neutral"⟩]
        ((CorpusSC.init (specTokenize (fun _ _ => ([7], [0])) 9 3) "T2" "q"
          [⟨"a", "b", "neutral"⟩] []).2)).1 = some c2 ∧
      (CorpusSC.init (specTokenize (fun _ _ => ([7], [0])) 9 3) "T2" "q"
        [⟨"a", "b", "neutral"⟩]
        ((CorpusSC.init (specTokenize (fun _ _ => ([7], [0])) 9 3) "T2" "q"
          [⟨"a", "b", "neutral"⟩] []).2)).2 =
        (CorpusSC.init (specTokenize (fun _ _ => ([7], [0])) 9 3) "T2" "q"
          [⟨"a", "b", "neutral"⟩] []).2 ∧
      ∀ i : Nat, c2.getItem i = c1.getItem i :=
  construction_idempotent "T" (fun _ _ => (1 : Nat)) (fun _ _ => (2 : Nat))
    (fun e _ => (e, ([] : List QARow))) "d/f" false [] rfl
    (specTokenize (fun _ _ => ([7], [0])) 9 3) "T2" "q"
    [⟨"a", "b", "neutral"⟩] [] rfl
    ⟨[[7, 9, 9]], [[1, 0, 0]], [[0, 0, 0]], [2]⟩ (by decide)

/-- C9: boundary behaviour on an empty source: a source producing zero
converted rows (QA) or zero tab-separated rows (SC) yields length 0, and
indexed access at position 0 returns no value. -/
theorem empty_source_length_zero {F E : Type} (tokName : String)
    (gd gt : String → String → E) (convert : E → Bool → F × List QARow)
    (file : String) (evaluate : Bool) (fs : QAFS F E)
    (hmiss : fs.lookup (CorpusQA.cachedFeaturesFile tokName file) = none)
    (hempty : (convert (CorpusQA.sourceExamples gd gt file evaluate)
      (!evaluate)).2 = [])
    (tok : List String → List String → BatchEncoding)
    (scTok scPath : String) (scfs : SCFS)
    (hmiss2 : scfs.lookup (CorpusSC.cachePath scTok scPath) = none)
    (htok : tok [] [] = ⟨[], [], []⟩) :
    (CorpusQA.init tokName gd gt convert file evaluate fs).1.len = 0 ∧
    (CorpusQA.init tokName gd gt convert file evaluate fs).1.getItem 0 = none ∧
    ∃ c, (CorpusSC.init tok scTok scPath [] scfs).1 = some c ∧
      c.length = 0 ∧ c.getItem 0 = none := by
  rw [CorpusQA.init_cache_miss _ _ _ _ _ _ _ hmiss]
  have hp : CorpusSC.preprocess tok [] =
      some ⟨(tok [] []).input_ids, (tok [] []).attention_mask,
            (tok [] []).token_type_ids, []⟩ := rfl
  rw [htok] at hp
  have s1 : CorpusSC.init tok scTok scPath [] scfs =
      (some ⟨⟨[], [], [], []⟩⟩,
       (CorpusSC.cachePath scTok scPath, ⟨[], [], [], []⟩) :: scfs) := by
    rw [CorpusSC.init_miss _ _ _ _ _ hmiss2, hp]
  refine ⟨?_, ?_, ⟨⟨[], [], [], []⟩⟩, by rw [s1], rfl, rfl⟩
  · show ((convert (CorpusQA.sourceExamples gd gt file evaluate)
      (!evaluate)).2).length = 0
    rw [hempty]
    rfl
  · simp only [CorpusQA.getItem, hempty, List.getElem?_nil]

/-- Witness for C9 at concrete inputs for both adapters. -/
theorem empty_source_length_zero_witness :
    (CorpusQA.init "T" (fun _ _ => (0 : Nat)) (fun _ _ => (0 : Nat))
        (fun _ _ => ((0 : Nat), ([] : List QARow))) "d/f" false []).1.len = 0 ∧
    (CorpusQA.init "T" (fun _ _ => (0 : Nat)) (fun _ _ => (0 : Nat))
        (fun _ _ => ((0 : Nat), ([] : List QARow))) "d/f" false []).1.getItem 0
      = none ∧
    ∃ c, (CorpusSC.init (specTokenize (fun _ _ => ([7], [0])) 9 3) "T2" "q"
        [] []).1 = some c ∧ c.length = 0 ∧ c.getItem 0 = none :=
  empty_source_length_zero "T" (fun _ _ => (0 : Nat)) (fun _ _ => (0 : Nat))
    (fun _ _ => ((0 : Nat), ([] : List QARow))) "d/f" false [] rfl rfl
    (specTokenize (fun _ _ => ([7], [0])) 9 3) "T2" "q" [] rfl rfl

/-- C10: the QA cache path does not depend on the evaluate flag, so a
construction under one flag after a prior construction under the other flag
takes the cache-hit branch: it returns the stored triple produced under the
first flag and changes nothing, without re-running example extraction. -/
theorem qa_cache_ignores_evaluate_flag {F E : Type} (tokName : String)
    (gd gt : String → String → E) (convert : E → Bool → F × List QARow)
    (file : String) (e1 e2 : Bool) (fs : QAFS F E)
    (hmiss : fs.lookup (CorpusQA.cachedFeaturesFile tokName file) = none) :
    CorpusQA.preprocess tokName gd gt convert file e2
        ((CorpusQA.preprocess tokName gd gt convert file e1 fs).2) =
      ((CorpusQA.preprocess tokName gd gt convert file e1 fs).1,
       (CorpusQA.preprocess tokName gd gt convert file e1 fs).2) := by
  have h1 := CorpusQA.preprocess_miss tokName gd gt convert file e1 fs hmiss
  have hlk : ((CorpusQA.preprocess tokName gd gt convert file e1 fs).2).lookup
      (CorpusQA.cachedFeaturesFile tokName file) = some
      ⟨(convert (CorpusQA.sourceExamples gd gt file e1) (!e1)).1,
       (convert (CorpusQA.sourceExamples gd gt file e1) (!e1)).2,
       CorpusQA.sourceExamples gd gt file e1⟩ := by
    rw [h1]
    exact lookup_cons_self _ _ _
  rw [CorpusQA.preprocess_hit _ _ _ _ _ _ _ _ hlk, h1]

/-- Witness for C10: a first construction with evaluate set to false
followed by one with evaluate set to true, with distinguishable dev and
train extractors. -/
theorem qa_cache_ignores_evaluate_flag_witness :
    CorpusQA.preprocess "T" (fun _ _ => (1 : Nat)) (fun _ _ => (2 : Nat))
        (fun e _ => (e, ([] : List QARow))) "d/f" true
        ((CorpusQA.preprocess "T" (fun _ _ => (1 : Nat)) (fun _ _ => (2 : Nat))
          (fun e _ => (e, ([] : List QARow))) "d/f" false []).2) =
      ((CorpusQA.preprocess "T" (fun _ _ => (1 : Nat)) (fun _ _ => (2 : Nat))
          (fun e _ => (e, ([] : List QARow))) "d/f" false []).1,
       (CorpusQA.preprocess "T" (fun _ _ => (1 : Nat)) (fun _ _ => (2 : Nat))
          (fun e _ => (e, ([] : List QARow))) "d/f" false []).2) :=
  qa_cache_ignores_evaluate_flag "T" (fun _ _ => (1 : Nat))
    (fun _ _ => (2 : Nat)) (fun e _ => (e, ([] : List QARow)))
    "d/f" false true [] rfl

end DReCa
